import Mathlib

/-
Verification of the ORCID telescope's incremental release, manifest and
record-transform logic, as described by the repository's specification and
exercised by academic_observatory_workflows/orcid_telescope/tests/test_tasks.py.

The implementation modules (orcid_telescope/tasks.py, release.py, batch.py)
are not part of the provided sources; only their tests are.  Each definition
below is therefore modelled from the specification's description of the
corresponding function, with timestamps embedded as natural numbers and the
parsed per-record payload embedded as an inductive type (a parsed XML document
has exactly one top-level section).
-/

namespace OrcidTelescope

/-! ### Release computation (`tasks.fetch_release`) -/

/-- Modelled from the spec: the epoch timestamp (`datetime.datetime.min`)
used as the default previous watermark on a first run.  Timestamps are
embedded as natural numbers, so the epoch is `0`. -/
def EPOCH : Nat := 0

/-- Modelled from the spec: the prior persisted release metadata consulted by
`fetch_release` — the previous run's end date and the
`latest_modified_record_date` value stored in the metadata's extra field. -/
structure PriorReleaseMetadata where
  changefile_end_date : Nat
  extra_latest_modified_record_date : Nat
deriving DecidableEq, Repr

/-- Modelled from the spec: a Release identifies one incremental run —
start/end timestamps of the covered window, the end timestamp of the previous
run, the timestamp of the most-recently-modified source record seen
previously, and a flag marking whether this is the first run ever. -/
structure OrcidRelease where
  start_date : Nat
  end_date : Nat
  prev_release_end : Nat
  prev_latest_modified_record : Nat
  is_first_run : Bool
deriving DecidableEq, Repr

/-- Modelled from the spec: `tasks.fetch_release` (missing from the provided
sources; only its test is present).  On first run (no prior release metadata
exists), window = [data_interval_start, data_interval_end), previous watermark
= epoch.  On subsequent runs, previous watermark = previous run's end date and
previous latest-modified-record time = value stored in prior release
metadata's extra field. -/
def fetch_release (data_interval_start data_interval_end : Nat)
    (prior : Option PriorReleaseMetadata) : OrcidRelease :=
  match prior with
  | none =>
      { start_date := data_interval_start
        end_date := data_interval_end
        prev_release_end := EPOCH
        prev_latest_modified_record := EPOCH
        is_first_run := true }
  | some p =>
      { start_date := data_interval_start
        end_date := data_interval_end
        prev_release_end := p.changefile_end_date
        prev_latest_modified_record := p.extra_latest_modified_record_date
        is_first_run := false }

/-! ### Record transform (`tasks.transform_orcid_record`) -/

/-- Modelled from the spec: the interesting content of a payload's "record"
section — the identifier embedded in the payload (`orcid_identifier.path`)
plus the rest of the structured record, abstracted as a string. -/
structure OrcidRecordData where
  orcid_identifier_path : String
  content : String
deriving DecidableEq, Repr

/-- Modelled from the spec: a parsed per-record payload.  A parsed XML
document has exactly one top-level section: an "error" section, a "record"
section, or some other key (in which case the transform fails). -/
inductive OrcidPayload where
  | errorPayload (content : String)
  | recordPayload (r : OrcidRecordData)
  | otherPayload (key : String) (content : String)
deriving DecidableEq, Repr

/-- Modelled from the spec: a transformed record is either a structured
record (success) or a bare identifier string (marks a tombstone/error
condition signaling deletion). -/
inductive TransformedRecord where
  | structured (r : OrcidRecordData)
  | bareIdentifier (orcid : String)
deriving DecidableEq, Repr

/-- Modelled from the spec: the failure conditions of the transform — a
structural-error condition (Python `KeyError`) and a validation-error
condition (Python `ValueError` carrying a message). -/
inductive TransformError where
  | keyError (key : String)
  | valueError (msg : String)
deriving DecidableEq, Repr

/-- Modelled from the spec: `tasks.transform_orcid_record` (missing from the
provided sources; only its tests are present).  Parse the per-record payload;
if it contains an "error" section, return the bare identifier; if it contains
a "record" section, return the structured record; if neither key is present,
fail with a structural-error condition; if the identifier embedded in the
payload disagrees with the identifier encoded in the filename, fail with a
validation-error condition.  `filenameOrcid` is the identifier encoded in the
filename. -/
def transform_orcid_record (filenameOrcid : String) (p : OrcidPayload) :
    Except TransformError TransformedRecord :=
  match p with
  | .errorPayload _ => .ok (.bareIdentifier filenameOrcid)
  | .recordPayload r =>
      if r.orcid_identifier_path = filenameOrcid then
        .ok (.structured r)
      else
        .error (.valueError
          ("ORCID " ++ filenameOrcid ++ " does not match ORCID in record "
            ++ r.orcid_identifier_path))
  | .otherPayload k _ => .error (.keyError k)

/-! ### Batch manifests (`tasks.create_orcid_batch_manifest`) -/

/-- Modelled from the spec: an object in cloud object storage, as returned by
listing a bucket — its path (`name`), its bucket, and its modification
timestamp (`updated`), embedded as a natural number. -/
structure Blob where
  name : String
  bucketName : String
  updated : Nat
deriving DecidableEq, Repr

/-- Modelled from the spec: a manifest row — (bucket, object path,
identifier, modification time) for one changed source record. -/
structure ManifestRow where
  bucket_name : String
  blob_name : String
  orcid : String
  updated : Nat
deriving DecidableEq, Repr

/-- Modelled from the spec: the header row of a batch's manifest CSV file
(`tasks.MANIFEST_HEADER`). -/
def MANIFEST_HEADER : List String := ["bucket_name", "blob_name", "orcid", "updated"]

/-- Modelled from the spec: the identifier encoded in an object's path — the
final path component with its `.xml` extension removed. -/
def orcidFromBlobName (name : String) : String :=
  let base := ((name.splitOn "/").reverse.headD "")
  if base.endsWith ".xml" then base.dropRight 4 else base

/-- Modelled from the spec: the manifest row recorded for one changed
object. -/
def blobToRow (b : Blob) : ManifestRow :=
  { bucket_name := b.bucketName
    blob_name := b.name
    orcid := orcidFromBlobName b.name
    updated := b.updated }

/-- Modelled from the spec: whether an object qualifies for a batch's
manifest — its path lies under the batch's prefix and its modification time
is strictly after the reference watermark. -/
def qualifies (batchStr : String) (referenceTime : Nat) (b : Blob) : Bool :=
  (batchStr ++ "/").data.isPrefixOf b.name.data && decide (referenceTime < b.updated)

/-- Ordering of manifest rows by modification time. -/
def rowLE (a b : ManifestRow) : Prop := a.updated ≤ b.updated

instance : DecidableRel rowLE :=
  fun a b => inferInstanceAs (Decidable (a.updated ≤ b.updated))

instance : IsTotal ManifestRow rowLE :=
  ⟨fun a b => Nat.le_total a.updated b.updated⟩

instance : IsTrans ManifestRow rowLE :=
  ⟨fun _ _ _ h1 h2 => Nat.le_trans h1 h2⟩

/-- Modelled from the spec: `tasks.create_orcid_batch_manifest` (missing from
the provided sources; only its tests are present).  List all objects under a
batch's prefix in object storage (`blobs` is the bucket's object listing),
keep only those whose modification time is strictly after the reference
watermark, and produce rows sorted by modification time ascending. -/
def create_orcid_batch_manifest (blobs : List Blob) (batchStr : String)
    (referenceTime : Nat) : List ManifestRow :=
  List.insertionSort rowLE ((blobs.filter (qualifies batchStr referenceTime)).map blobToRow)

/-- Modelled from the spec: one CSV data row of the manifest file. -/
def rowToCsv (r : ManifestRow) : List String :=
  [r.bucket_name, r.blob_name, r.orcid, toString r.updated]

/-- Modelled from the spec: the full contents of the manifest file written by
`create_orcid_batch_manifest` — the header followed by the data rows; the
file is produced even when no object qualifies. -/
def manifest_file_contents (blobs : List Blob) (batchStr : String)
    (referenceTime : Nat) : List (List String) :=
  MANIFEST_HEADER :: (create_orcid_batch_manifest blobs batchStr referenceTime).map rowToCsv

/-! ### Batch names (`release.orcid_batch_names`, `batch.BATCH_REGEX`) -/

/-- The ten decimal digit characters. -/
def orcidDigits : List Char := ['0', '1', '2', '3', '4', '5', '6', '7', '8', '9']

/-- Modelled from the spec: `batch.BATCH_REGEX` (missing from the provided
sources) as a decidable predicate — a three-character shard code: two decimal
digits followed by a decimal digit or `X`, covering the identifier
namespace (ORCID identifiers end in a digit or the checksum character X). -/
def matchesBatchRegex (s : String) : Bool :=
  match s.data with
  | [a, b, c] => a.isDigit && b.isDigit && (c.isDigit || c = 'X')
  | _ => false

/-- Modelled from the spec: `release.orcid_batch_names` (missing from the
provided sources; only its test is present) — the fixed enumerable set of
shard identifiers: every three-character code of two digits followed by a
digit or `X`, 10 * 10 * 11 = 1100 codes in all. -/
def orcid_batch_names : List String :=
  orcidDigits.flatMap fun a =>
    orcidDigits.flatMap fun b =>
      (orcidDigits ++ ['X']).map fun c => String.mk [a, b, c]

/-- Numeric key of a batch name, used to show the batch names are pairwise
distinct. -/
def orcidCharVal (c : Char) : Nat := if c = 'X' then 10 else c.toNat - 48

/-- Numeric key of a batch name, injective on the generated list. -/
def batchKey (s : String) : Nat :=
  match s.data with
  | [a, b, c] => (orcidCharVal a * 10 + orcidCharVal b) * 11 + orcidCharVal c
  | _ => 0

/-! ### Latest modified record (`tasks.latest_modified_record_date`) -/

/-- Modelled from the spec: `tasks.latest_modified_record_date` (missing from
the provided sources; only its test is present) — read the manifest's rows
and return the latest (maximum) modification timestamp among them, `none` on
an empty manifest. -/
def latest_modified_record_date (rows : List ManifestRow) : Option Nat :=
  match rows with
  | [] => none
  | r :: rs => some (rs.foldl (fun acc x => Nat.max acc x.updated) r.updated)

end OrcidTelescope

namespace OrcidTelescope

/-! ### First-run release computation: C1 -/

/-- C1: on a first run (no prior release metadata exists), `fetch_release`
returns a release whose window is [data_interval_start, data_interval_end),
whose previous watermark and previous latest-modified-record time equal the
epoch, and whose first-run flag is true. -/
theorem fetch_release_first_run (dis die : Nat) :
    (fetch_release dis die none).start_date = dis ∧
    (fetch_release dis die none).end_date = die ∧
    (fetch_release dis die none).prev_release_end = EPOCH ∧
    (fetch_release dis die none).prev_latest_modified_record = EPOCH ∧
    (fetch_release dis die none).is_first_run = true :=
  ⟨rfl, rfl, rfl, rfl, rfl⟩

/-- C5: on a non-first run (prior release metadata exists), `fetch_release`
returns a release whose previous watermark equals the previous run's end
date, whose previous latest-modified-record time equals the value stored in
the prior release metadata's extra field, and whose first-run flag is
false. -/
theorem fetch_release_subsequent_run (dis die : Nat) (p : PriorReleaseMetadata) :
    (fetch_release dis die (some p)).start_date = dis ∧
    (fetch_release dis die (some p)).end_date = die ∧
    (fetch_release dis die (some p)).prev_release_end = p.changefile_end_date ∧
    (fetch_release dis die (some p)).prev_latest_modified_record
      = p.extra_latest_modified_record_date ∧
    (fetch_release dis die (some p)).is_first_run = false :=
  ⟨rfl, rfl, rfl, rfl, rfl⟩

/-! ### Record transform: C2, C3, C4 -/

/-- C2: for every per-record payload that parses (the transform succeeds),
the result is the bare identifier string exactly when the payload contains an
"error" section, and the structured record — whose embedded identifier equals
the filename's identifier — exactly when the payload contains a "record"
section; these are the only two shapes a result can take. -/
theorem transform_orcid_record_shapes (f : String) (p : OrcidPayload)
    (res : TransformedRecord)
    (h : transform_orcid_record f p = .ok res) :
    ((∃ c, p = .errorPayload c) ∧ res = .bareIdentifier f) ∨
      (∃ r, p = .recordPayload r ∧ res = .structured r ∧
        r.orcid_identifier_path = f) := by
  cases p with
  | errorPayload c =>
      left
      refine ⟨⟨c, rfl⟩, ?_⟩
      simpa [transform_orcid_record] using h.symm
  | recordPayload r =>
      right
      by_cases hid : r.orcid_identifier_path = f
      · refine ⟨r, rfl, ?_, hid⟩
        simp only [transform_orcid_record, if_pos hid, Except.ok.injEq] at h
        exact h.symm
      · simp [transform_orcid_record, hid] at h
  | otherPayload k c =>
      simp [transform_orcid_record] at h

/-- Witness for C2: a concrete error payload is transformed to a bare
identifier. -/
theorem transform_orcid_record_shapes_witness :
    ((∃ c, OrcidPayload.errorPayload "410 Gone" = OrcidPayload.errorPayload c) ∧
      TransformedRecord.bareIdentifier "0000-0001-5007-2000"
        = TransformedRecord.bareIdentifier "0000-0001-5007-2000") ∨
      (∃ r, OrcidPayload.errorPayload "410 Gone" = OrcidPayload.recordPayload r ∧
        TransformedRecord.bareIdentifier "0000-0001-5007-2000"
          = TransformedRecord.structured r ∧
        r.orcid_identifier_path = "0000-0001-5007-2000") :=
  transform_orcid_record_shapes "0000-0001-5007-2000"
    (.errorPayload "410 Gone") (.bareIdentifier "0000-0001-5007-2000") rfl

/-- C3: for every record payload whose embedded identifier differs from the
identifier encoded in the filename, the transform fails with a
validation-error condition (a ValueError whose message states the mismatch)
and returns no result. -/
theorem transform_orcid_record_mismatch (f : String) (r : OrcidRecordData)
    (h : r.orcid_identifier_path ≠ f) :
    transform_orcid_record f (.recordPayload r) =
      .error (.valueError ("ORCID " ++ f ++ " does not match ORCID in record "
        ++ r.orcid_identifier_path)) := by
  simp [transform_orcid_record, h]

/-- Witness for C3: a concrete mismatched payload yields the validation
error. -/
theorem transform_orcid_record_mismatch_witness :
    transform_orcid_record "0000-0001-5011-1000"
        (.recordPayload ⟨"0000-0001-5012-1000", "rec"⟩) =
      .error (.valueError ("ORCID " ++ "0000-0001-5011-1000"
        ++ " does not match ORCID in record " ++ "0000-0001-5012-1000")) :=
  transform_orcid_record_mismatch "0000-0001-5011-1000"
    ⟨"0000-0001-5012-1000", "rec"⟩ (by decide)

/-- C4: for every payload containing neither an "error" section nor a
"record" section, the transform fails with a structural-error condition
(a KeyError) and returns no result. -/
theorem transform_orcid_record_invalid_key (f k c : String) :
    transform_orcid_record f (.otherPayload k c) = .error (.keyError k) := rfl

/-! ### Batch manifests: C6, C7, C8 -/

/-- C6: an object appears as a row of the manifest if and only if its path
lies under the batch's prefix and its modification time is strictly after the
reference watermark; in particular an object modified exactly at the
watermark is excluded. -/
theorem create_orcid_batch_manifest_mem_iff (blobs : List Blob)
    (batchStr : String) (ref : Nat) (row : ManifestRow) :
    row ∈ create_orcid_batch_manifest blobs batchStr ref ↔
      ∃ b ∈ blobs, (batchStr ++ "/").data.isPrefixOf b.name.data = true ∧
        ref < b.updated ∧ row = blobToRow b := by
  unfold create_orcid_batch_manifest
  rw [List.mem_insertionSort]
  simp only [List.mem_map, List.mem_filter, qualifies, Bool.and_eq_true,
    decide_eq_true_eq]
  constructor
  · rintro ⟨b, ⟨hb, hp, ht⟩, rfl⟩
    exact ⟨b, hb, hp, ht, rfl⟩
  · rintro ⟨b, hb, hp, ht, rfl⟩
    exact ⟨b, ⟨hb, hp, ht⟩, rfl⟩

/-- C7: the rows of the manifest are sorted by modification time in
ascending order — for every pair of rows in order of appearance, the earlier
row's modification time is less than or equal to the later row's (so in
particular each row's is at most the next row's). -/
theorem create_orcid_batch_manifest_sorted (blobs : List Blob)
    (batchStr : String) (ref : Nat) :
    (create_orcid_batch_manifest blobs batchStr ref).Pairwise
      (fun a b => a.updated ≤ b.updated) :=
  List.sorted_insertionSort rowLE _

/-- C8: when no object under the batch's prefix has a modification time
strictly after the reference watermark, the manifest file is still produced,
containing the header and zero data rows. -/
theorem manifest_file_contents_empty (blobs : List Blob) (batchStr : String)
    (ref : Nat)
    (h : ∀ b ∈ blobs, (batchStr ++ "/").data.isPrefixOf b.name.data = true →
      b.updated ≤ ref) :
    manifest_file_contents blobs batchStr ref = [MANIFEST_HEADER] := by
  unfold manifest_file_contents create_orcid_batch_manifest
  have hf : blobs.filter (qualifies batchStr ref) = [] := by
    apply List.filter_eq_nil_iff.mpr
    intro b hb
    simp only [qualifies, Bool.and_eq_true, decide_eq_true_eq, not_and]
    intro hp ht
    exact absurd (h b hb hp) (Nat.not_le.mpr ht)
  rw [hf]
  rfl

/-- Witness for C8: with a single object modified before the watermark, the
manifest file consists of the header alone. -/
theorem manifest_file_contents_empty_witness :
    manifest_file_contents [⟨"12X/blob1", "test-bucket", 5⟩] "12X" 10
      = [MANIFEST_HEADER] :=
  manifest_file_contents_empty [⟨"12X/blob1", "test-bucket", 5⟩] "12X" 10
    (by decide)

/-! ### Batch names: C9 -/

set_option maxRecDepth 10000 in
/-- C9: `orcid_batch_names` is a fixed list of exactly 1100 pairwise-distinct
three-character shard codes, each matching the batch regex. -/
theorem orcid_batch_names_spec :
    orcid_batch_names.length = 1100 ∧ orcid_batch_names.Nodup ∧
      ∀ s ∈ orcid_batch_names, s.length = 3 ∧ matchesBatchRegex s = true := by
  refine ⟨by rfl, ?_, ?_⟩
  · have hmap : orcid_batch_names.map batchKey = List.range 1100 := by rfl
    have h2 : (orcid_batch_names.map batchKey).Nodup := by
      rw [hmap]; exact List.nodup_range 1100
    exact List.Nodup.of_map batchKey h2
  · have hall : orcid_batch_names.all
        (fun s => matchesBatchRegex s && (s.length == 3)) = true := by rfl
    intro s hs
    have hres := List.all_eq_true.mp hall s hs
    simp only [Bool.and_eq_true, beq_iff_eq] at hres
    exact ⟨hres.2, hres.1⟩

/-! ### Latest modified record: C10 -/

/-- Characterisation of the running maximum used by
`latest_modified_record_date`: it dominates the accumulator and every row,
and is either the accumulator or attained by some row. -/
theorem foldl_max_spec (l : List ManifestRow) (a : Nat) :
    a ≤ l.foldl (fun acc x => Nat.max acc x.updated) a ∧
      (∀ r ∈ l, r.updated ≤ l.foldl (fun acc x => Nat.max acc x.updated) a) ∧
      (l.foldl (fun acc x => Nat.max acc x.updated) a = a ∨
        ∃ r ∈ l, l.foldl (fun acc x => Nat.max acc x.updated) a = r.updated) := by
  induction l generalizing a with
  | nil => exact ⟨Nat.le_refl a, by simp, Or.inl rfl⟩
  | cons x xs ih =>
    simp only [List.foldl_cons]
    obtain ⟨h1, h2, h3⟩ := ih (Nat.max a x.updated)
    refine ⟨Nat.le_trans (Nat.le_max_left _ _) h1, ?_, ?_⟩
    · intro r hr
      rcases List.mem_cons.mp hr with hr | hr
      · rw [hr]
        exact Nat.le_trans (Nat.le_max_right _ _) h1
      · exact h2 r hr
    · rcases h3 with h3 | ⟨r, hr, h3⟩
      · rcases Nat.le_total a x.updated with hax | hax
        · exact Or.inr ⟨x, List.mem_cons_self x xs,
            by rw [h3]; exact Nat.max_eq_right hax⟩
        · exact Or.inl (by rw [h3]; exact Nat.max_eq_left hax)
      · exact Or.inr ⟨r, List.mem_cons_of_mem x hr, h3⟩

/-- The latest-modified-record time of a non-empty manifest is an attained
upper bound of the rows' modification times. -/
theorem latestSpecAux (rows : List ManifestRow) (h : rows ≠ []) :
    ∃ t, latest_modified_record_date rows = some t ∧
      (∀ r ∈ rows, r.updated ≤ t) ∧ ∃ r ∈ rows, r.updated = t := by
  match rows with
  | [] => exact absurd rfl h
  | r :: rs =>
    obtain ⟨h1, h2, h3⟩ := foldl_max_spec rs r.updated
    refine ⟨_, rfl, ?_, ?_⟩
    · intro x hx
      rcases List.mem_cons.mp hx with hx | hx
      · rw [hx]; exact h1
      · exact h2 x hx
    · rcases h3 with h3 | ⟨x, hx, h3⟩
      · exact ⟨r, List.mem_cons_self r rs, h3.symm⟩
      · exact ⟨x, List.mem_cons_of_mem r hx, h3.symm⟩

/-- C10: for every non-empty manifest, `latest_modified_record_date` returns
the maximum modification timestamp over all rows — an upper bound attained by
at least one row (ties included) — and the result is invariant under
reordering of the rows. -/
theorem latest_modified_record_date_max (rows : List ManifestRow)
    (h : rows ≠ []) :
    ∃ t, latest_modified_record_date rows = some t ∧
      (∀ r ∈ rows, r.updated ≤ t) ∧ (∃ r ∈ rows, r.updated = t) ∧
      ∀ rows₂, rows.Perm rows₂ → latest_modified_record_date rows₂ = some t := by
  obtain ⟨t, ht, hub, hat⟩ := latestSpecAux rows h
  refine ⟨t, ht, hub, hat, ?_⟩
  intro rows₂ hperm
  have h₂ : rows₂ ≠ [] := by
    intro hnil
    subst hnil
    exact h (List.Perm.eq_nil hperm)
  obtain ⟨t₂, ht₂, hub₂, hat₂⟩ := latestSpecAux rows₂ h₂
  have e : t = t₂ := by
    apply Nat.le_antisymm
    · obtain ⟨r, hr, hrt⟩ := hat
      exact hrt ▸ hub₂ r (hperm.mem_iff.mp hr)
    · obtain ⟨r, hr, hrt⟩ := hat₂
      exact hrt ▸ hub r (hperm.mem_iff.mpr hr)
  rw [ht₂, e]

/-- Witness for C10: a concrete four-row manifest, with the two latest rows
sharing the maximum timestamp, has latest-modified-record time 3. -/
theorem latest_modified_record_date_max_witness :
    ∃ t, latest_modified_record_date
        [⟨"gs", "a.xml", "o1", 3⟩, ⟨"gs", "b.xml", "o2", 3⟩,
          ⟨"gs", "c.xml", "o3", 2⟩, ⟨"gs", "d.xml", "o4", 1⟩] = some t ∧
      (∀ r ∈ [ManifestRow.mk "gs" "a.xml" "o1" 3, ⟨"gs", "b.xml", "o2", 3⟩,
          ⟨"gs", "c.xml", "o3", 2⟩, ⟨"gs", "d.xml", "o4", 1⟩], r.updated ≤ t) ∧
      (∃ r ∈ [ManifestRow.mk "gs" "a.xml" "o1" 3, ⟨"gs", "b.xml", "o2", 3⟩,
          ⟨"gs", "c.xml", "o3", 2⟩, ⟨"gs", "d.xml", "o4", 1⟩], r.updated = t) ∧
      ∀ rows₂,
        List.Perm [ManifestRow.mk "gs" "a.xml" "o1" 3, ⟨"gs", "b.xml", "o2", 3⟩,
          ⟨"gs", "c.xml", "o3", 2⟩, ⟨"gs", "d.xml", "o4", 1⟩] rows₂ →
        latest_modified_record_date rows₂ = some t :=
  latest_modified_record_date_max
    [⟨"gs", "a.xml", "o1", 3⟩, ⟨"gs", "b.xml", "o2", 3⟩,
      ⟨"gs", "c.xml", "o3", 2⟩, ⟨"gs", "d.xml", "o4", 1⟩]
    (by decide)

end OrcidTelescope
